import Mathlib

/-!
Verification of the reporting core of `src/pages/teacher.py` (teacher dashboard).

The dashboard loads graded submissions, derives O/X/? verdicts from feedback
strings, reduces to each student's latest submission, and exports CSV reports.
This file shallowly embeds that core: Python strings become `String`, nullable
cells become `Option String`, timestamps become `Nat` (pandas `Timestamp`
ordering is total, and only the order matters to the code), dataframes become
`List`s of row structures, and the pandas operations used by the code
(`sort_values`, `groupby(...).first()`, `iterrows`) are spelled out as list
operations with their pandas semantics noted at each definition.
-/

/-- Python `str.startswith(p)`: `p` is a prefix of the string's character
sequence (code points; no trimming or normalization). -/
def py_startswith (s p : String) : Bool :=
  p.data.isPrefixOf s.data

/-- `extract_result` (teacher.py 96-104).  The argument is the `feedback_i`
cell, which may be absent (`none`, i.e. Python `None`/missing) or a string;
Python's `not feedback` is true exactly for `None` and `""`. -/
def extract_result (feedback : Option String) : String :=
  match feedback with
  | none => "?"
  | some f =>
    if f = "" then "?"
    else if py_startswith f "O:" then "O"
    else if py_startswith f "X:" then "X"
    else "?"

/-- `calculate_score` (teacher.py 107-109): `1 if result == "O" else 0`. -/
def calculate_score (result : String) : Nat :=
  if result = "O" then 1 else 0

/-- One row of the loaded dataframe `df` after the ingestion step
(teacher.py 231-237): the submission fields stored in `student_submissions`.
`created_at` is non-null (spec invariant) and modelled as a `Nat` timestamp;
`feedback_i` may be null. -/
structure Submission where
  student_id : String
  created_at : Nat
  model : String
  answer_1 : String
  answer_2 : String
  answer_3 : String
  feedback_1 : Option String
  feedback_2 : Option String
  feedback_3 : Option String
  guideline_1 : String
  guideline_2 : String
  guideline_3 : String
deriving DecidableEq

/-- The `제출일시` display column (teacher.py 233):
`created_at` rendered by `strftime("%Y-%m-%d %H:%M")`.  The formatting itself
is presentational; it is modelled as an abstract rendering of the timestamp. -/
def format_submitted (t : Nat) : String :=
  toString t

/-- The derived `결과1` column (teacher.py 235). -/
def result_1 (s : Submission) : String :=
  extract_result s.feedback_1

/-- The derived `결과2` column (teacher.py 236). -/
def result_2 (s : Submission) : String :=
  extract_result s.feedback_2

/-- The derived `결과3` column (teacher.py 237). -/
def result_3 (s : Submission) : String :=
  extract_result s.feedback_3

/-- The descending `created_at` comparison used by
`df.sort_values("created_at", ascending=False)` (teacher.py 154). -/
def byCreatedDesc (a b : Submission) : Prop :=
  b.created_at ≤ a.created_at

instance : DecidableRel byCreatedDesc := fun a b =>
  inferInstanceAs (Decidable (b.created_at ≤ a.created_at))

instance : IsTotal Submission byCreatedDesc :=
  ⟨fun a b => Nat.le_total b.created_at a.created_at⟩

instance : IsTrans Submission byCreatedDesc :=
  ⟨fun _ _ _ h1 h2 => Nat.le_trans h2 h1⟩

/-- One admissible output of `df.sort_values("created_at", ascending=False)`
(teacher.py 154): the stable descending sort.  The source's default
`kind='quicksort'` is documented by pandas as NOT stable, so the order of
rows with equal timestamps is implementation-defined; `IsSortValuesDesc`
below is the faithful contract (any descending-sorted permutation), of which
this function is one representative, used by the executable pipeline for the
facts that do not depend on the tie order.  Facts that do depend on the tie
order are stated against `IsSortValuesDesc`. -/
def sortDescByCreated (df : List Submission) : List Submission :=
  List.insertionSort byCreatedDesc df

/-- The distinct `student_id` values occurring in the frame (the group keys of
`groupby("student_id")`). -/
def student_ids (df : List Submission) : List String :=
  (df.map Submission.student_id).dedup

/-- Ascending order on group keys / the `학번` column. -/
def sidLe (a b : String) : Prop :=
  a ≤ b

instance : DecidableRel sidLe := fun a b =>
  decidable_of_iff (a.toList ≤ b.toList) String.le_iff_toList_le.symm

instance : IsTotal String sidLe :=
  ⟨fun a b => le_total a b⟩

instance : IsTrans String sidLe :=
  ⟨fun _ _ _ h1 h2 => le_trans h1 h2⟩

/-- `.groupby("student_id").first().reset_index()` applied to the
descending-sorted frame (teacher.py 154): one row per distinct `student_id`,
group keys sorted ascending (pandas `groupby` default `sort=True`), each group
contributing its first row in the sorted frame -- the student's latest
submission.  (pandas `first()` takes the first non-null value per column; the
columns the summary reads -- `student_id`, `제출일시`, `결과1..3` -- are never
null, so that is the group's first row.) -/
def reduce_to_latest (df : List Submission) : List Submission :=
  (List.insertionSort sidLe (student_ids df)).filterMap
    (fun sid => (sortDescByCreated df).find? (fun s => s.student_id == sid))

/-- One row of the summary sheet: the dict literal of teacher.py 159-171.
Field names in the source: 학번, 제출일시, 문항1, 문항2, 문항3, 정답개수, 총점. -/
structure SummaryRow where
  student_id : String
  submitted_at : String
  q1 : String
  q2 : String
  q3 : String
  correct_count : Nat
  total : Nat
deriving DecidableEq

/-- The summary record built from one latest submission (teacher.py 159-171).
`row["결과i"]` is the derived column, i.e. `result_i row`. -/
def mkSummaryRow (row : Submission) : SummaryRow where
  student_id := row.student_id
  submitted_at := format_submitted row.created_at
  q1 := result_1 row
  q2 := result_2 row
  q3 := result_3 row
  correct_count :=
    calculate_score (result_1 row) + calculate_score (result_2 row) +
      calculate_score (result_3 row)
  total :=
    calculate_score (result_1 row) + calculate_score (result_2 row) +
      calculate_score (result_3 row)

/-- Ascending order on the `학번` column of summary rows. -/
def rowSidLe (a b : SummaryRow) : Prop :=
  a.student_id ≤ b.student_id

instance : DecidableRel rowSidLe := fun a b =>
  decidable_of_iff (a.student_id.toList ≤ b.student_id.toList)
    String.le_iff_toList_le.symm

instance : IsTotal SummaryRow rowSidLe :=
  ⟨fun a b => le_total a.student_id b.student_id⟩

instance : IsTrans SummaryRow rowSidLe :=
  ⟨fun _ _ _ h1 h2 => le_trans h1 h2⟩

/-- `create_summary_grade_sheet` (teacher.py 150-174).  The final
`pd.DataFrame(summary_data).sort_values("학번")` raises `KeyError: '학번'`
when `summary_data` is empty, because `pd.DataFrame([])` is a frame with no
columns at all, so there is no 학번 column to sort by; that failure path is
the `Except.error` branch.  On non-empty data it sorts ascending by 학번
(stable). -/
def create_summary_grade_sheet (df : List Submission) :
    Except String (List SummaryRow) :=
  let summary_data := (reduce_to_latest df).map mkSummaryRow
  if summary_data.isEmpty then Except.error "KeyError: 학번"
  else Except.ok (List.insertionSort rowSidLe summary_data)

/-- The faithful contract of `df.sort_values("created_at", ascending=False)`
with the source's default `kind='quicksort'` (teacher.py 154): the output is
some permutation of the rows that is descending in `created_at`.  pandas
documents quicksort as not stable, so the relative order of rows with equal
timestamps is implementation-defined: every descending-sorted permutation is
an admissible output, and no particular tie order is guaranteed. -/
def IsSortValuesDesc (df sorted : List Submission) : Prop :=
  List.Perm sorted df ∧ List.Sorted byCreatedDesc sorted

instance (df sorted : List Submission) : Decidable (IsSortValuesDesc df sorted) :=
  decidable_of_iff (List.Perm sorted df ∧ List.Sorted byCreatedDesc sorted) Iff.rfl

/-- `.groupby("student_id").first().reset_index()` (teacher.py 154) relative
to whichever descending-sorted frame `sort_values` actually returned: one row
per distinct `student_id` (group keys ascending), each group contributing its
first row in that frame's order.  `reduce_to_latest df` is this applied to
the stable representative `sortDescByCreated df`. -/
def reduce_to_latest_of (df sorted : List Submission) : List Submission :=
  (List.insertionSort sidLe (student_ids df)).filterMap
    (fun sid => sorted.find? (fun s => s.student_id == sid))

/-- `create_summary_grade_sheet` (teacher.py 150-174) relative to whichever
descending-sorted frame `sort_values` actually returned; the tie order of
that frame determines which of a student's equal-timestamp rows is retained.
`create_summary_grade_sheet df` is this applied to the stable representative
`sortDescByCreated df`. -/
def create_summary_grade_sheet_of (df sorted : List Submission) :
    Except String (List SummaryRow) :=
  let summary_data := (reduce_to_latest_of df sorted).map mkSummaryRow
  if summary_data.isEmpty then Except.error "KeyError: 학번"
  else Except.ok (List.insertionSort rowSidLe summary_data)

/-- One row of the detailed sheet: the dict literal of teacher.py 118-144.
Field names in the source: 학번, 제출일시, 문항i_결과, 문항i_점수, 문항i_답안,
문항i_피드백 for i in 1..3, and 총점. -/
structure DetailedRow where
  student_id : String
  submitted_at : String
  q1_result : String
  q1_score : Nat
  q1_answer : String
  q1_feedback : Option String
  q2_result : String
  q2_score : Nat
  q2_answer : String
  q2_feedback : Option String
  q3_result : String
  q3_score : Nat
  q3_answer : String
  q3_feedback : Option String
  total : Nat
deriving DecidableEq

/-- The detailed record built from one submission row (teacher.py 118-144). -/
def mkDetailedRow (row : Submission) : DetailedRow where
  student_id := row.student_id
  submitted_at := format_submitted row.created_at
  q1_result := result_1 row
  q1_score := calculate_score (result_1 row)
  q1_answer := row.answer_1
  q1_feedback := row.feedback_1
  q2_result := result_2 row
  q2_score := calculate_score (result_2 row)
  q2_answer := row.answer_2
  q2_feedback := row.feedback_2
  q3_result := result_3 row
  q3_score := calculate_score (result_3 row)
  q3_answer := row.answer_3
  q3_feedback := row.feedback_3
  total :=
    calculate_score (result_1 row) + calculate_score (result_2 row) +
      calculate_score (result_3 row)

/-- `create_detailed_grade_sheet` (teacher.py 112-147): one record per row of
the frame, in frame order; `pd.DataFrame(grade_data)` does not reorder. -/
def create_detailed_grade_sheet (df : List Submission) : List DetailedRow :=
  df.map mkDetailedRow

/-- The derived `결과i` column selected by question index, `df[f"결과{i}"]`
(teacher.py 277): questions are indexed by `Fin 3`. -/
def result_q (i : Fin 3) (s : Submission) : String :=
  if i.val = 0 then result_1 s
  else if i.val = 1 then result_2 s
  else result_3 s

/-- `(df[f"결과{i}"] == v).sum()` (teacher.py 279-281, 447-456): the number of
rows whose `결과i` cell equals `v`. -/
def count_result_q (df : List Submission) (i : Fin 3) (v : String) : Nat :=
  df.countP (fun s => result_q i s == v)

/-- The displayed 정답률 (teacher.py 283):
`(correct / total * 100) if total > 0 else 0`, as exact rational
arithmetic. -/
def correct_rate_display (df : List Submission) (i : Fin 3) : ℚ :=
  if 0 < df.length then (count_result_q df i "O" : ℚ) / (df.length : ℚ) * 100
  else 0

/-- Python `round(x, 1)` over exact rationals: round to one decimal place.
(Python rounds binary floats half-to-even; on the exact rationals of this
model the tie case is immaterial to the claims and rounds half-up.) -/
def round1 (q : ℚ) : ℚ :=
  (round (q * 10) : ℚ) / 10

/-- The 정답률(%) entry of the 문항별 통계 download (teacher.py 457-461):
`round((df[f"결과{i}"] == "O").sum() / len(df) * 100, 1)` with no zero guard.
When `len(df) = 0` the division is `0 / 0`, which under the numpy float
semantics of the source produces NaN (a plain-integer reading would raise
ZeroDivisionError); either way no rational value results, modelled `none`. -/
def stats_rate_download (df : List Submission) (i : Fin 3) : Option ℚ :=
  if df.length = 0 then none
  else some (round1 ((count_result_q df i "O" : ℚ) / (df.length : ℚ) * 100))

/-- A frame row as pandas actually hands it to the builders via `iterrows`:
every cell may be missing (NaN/None).  Indexing a row by an existing column
label never raises; an absent value comes back as null.  `result_i` is the
stored `결과i` cell. -/
structure RawSubmission where
  student_id : Option String
  submitted_at : Option String
  result_1 : Option String
  result_2 : Option String
  result_3 : Option String
  answer_1 : Option String
  answer_2 : Option String
  answer_3 : Option String
  feedback_1 : Option String
  feedback_2 : Option String
  feedback_3 : Option String
deriving DecidableEq

/-- `calculate_score` applied to a nullable cell: Python `None == "O"` is
`False`, so a null verdict scores 0 -- the null is not rejected. -/
def calculate_score_cell (c : Option String) : Nat :=
  if c = some "O" then 1 else 0

/-- The detailed record over nullable cells (teacher.py 118-144): every value
read from the row is passed through unchanged, null included. -/
structure RawDetailedRow where
  student_id : Option String
  submitted_at : Option String
  q1_result : Option String
  q1_score : Nat
  q1_answer : Option String
  q1_feedback : Option String
  q2_result : Option String
  q2_score : Nat
  q2_answer : Option String
  q2_feedback : Option String
  q3_result : Option String
  q3_score : Nat
  q3_answer : Option String
  q3_feedback : Option String
  total : Nat
deriving DecidableEq

/-- The dict literal of teacher.py 118-144 evaluated on a nullable row. -/
def mkRawDetailedRow (row : RawSubmission) : RawDetailedRow where
  student_id := row.student_id
  submitted_at := row.submitted_at
  q1_result := row.result_1
  q1_score := calculate_score_cell row.result_1
  q1_answer := row.answer_1
  q1_feedback := row.feedback_1
  q2_result := row.result_2
  q2_score := calculate_score_cell row.result_2
  q2_answer := row.answer_2
  q2_feedback := row.feedback_2
  q3_result := row.result_3
  q3_score := calculate_score_cell row.result_3
  q3_answer := row.answer_3
  q3_feedback := row.feedback_3
  total :=
    calculate_score_cell row.result_1 + calculate_score_cell row.result_2 +
      calculate_score_cell row.result_3

/-- `create_detailed_grade_sheet` (teacher.py 112-147) over nullable frame
rows: it loops `for _, row in df.iterrows()` and appends one record per row;
no field check, no error path. -/
def create_detailed_grade_sheet_raw (df : List RawSubmission) :
    List RawDetailedRow :=
  df.map mkRawDetailedRow

/-- The nullable view of a fully-present submission row. -/
def Submission.toRaw (s : Submission) : RawSubmission where
  student_id := some s.student_id
  submitted_at := some (format_submitted s.created_at)
  result_1 := some (result_1 s)
  result_2 := some (result_2 s)
  result_3 := some (result_3 s)
  answer_1 := some s.answer_1
  answer_2 := some s.answer_2
  answer_3 := some s.answer_3
  feedback_1 := s.feedback_1
  feedback_2 := s.feedback_2
  feedback_3 := s.feedback_3

/-- The group keys of `groupby("student_id")` over a nullable frame: one
group per distinct non-null key.  pandas excludes rows whose group key is
null (NaN/None) from every group, so a null-`student_id` row belongs to no
group and contributes nothing downstream. -/
def raw_student_ids (sorted : List RawSubmission) : List String :=
  (sorted.filterMap RawSubmission.student_id).dedup

/-- pandas `GroupBy.first()` for one column of the group keyed `sid`: the
first non-null value of that column among the group's rows in frame order
(`first()` skips NA elements per column), or null if the whole column is
null within the group. -/
def firstNonNull (sorted : List RawSubmission) (sid : String)
    (get : RawSubmission → Option String) : Option String :=
  ((sorted.filter (fun row => row.student_id == some sid)).filterMap get).head?

/-- One summary-sheet row over a nullable frame (teacher.py 159-171):
`student_id` is the non-null group key; the remaining cells may be null. -/
structure RawSummaryRow where
  student_id : String
  submitted_at : Option String
  q1 : Option String
  q2 : Option String
  q3 : Option String
  correct_count : Nat
  total : Nat
deriving DecidableEq

/-- The summary record of the group keyed `sid` (teacher.py 159-171 applied
to the `groupby(...).first()` row of that group). -/
def mkRawSummaryRow (sorted : List RawSubmission) (sid : String) :
    RawSummaryRow where
  student_id := sid
  submitted_at := firstNonNull sorted sid RawSubmission.submitted_at
  q1 := firstNonNull sorted sid RawSubmission.result_1
  q2 := firstNonNull sorted sid RawSubmission.result_2
  q3 := firstNonNull sorted sid RawSubmission.result_3
  correct_count :=
    calculate_score_cell (firstNonNull sorted sid RawSubmission.result_1)
      + calculate_score_cell (firstNonNull sorted sid RawSubmission.result_2)
      + calculate_score_cell (firstNonNull sorted sid RawSubmission.result_3)
  total :=
    calculate_score_cell (firstNonNull sorted sid RawSubmission.result_1)
      + calculate_score_cell (firstNonNull sorted sid RawSubmission.result_2)
      + calculate_score_cell (firstNonNull sorted sid RawSubmission.result_3)

/-- Ascending 학번 order on nullable summary rows. -/
def rawRowSidLe (a b : RawSummaryRow) : Prop :=
  a.student_id ≤ b.student_id

instance : DecidableRel rawRowSidLe := fun a b =>
  decidable_of_iff (a.student_id.toList ≤ b.student_id.toList)
    String.le_iff_toList_le.symm

instance : IsTotal RawSummaryRow rawRowSidLe :=
  ⟨fun a b => le_total a.student_id b.student_id⟩

instance : IsTrans RawSummaryRow rawRowSidLe :=
  ⟨fun _ _ _ h1 h2 => le_trans h1 h2⟩

/-- `create_summary_grade_sheet` (teacher.py 150-174) over a nullable frame,
relative to whichever descending-`created_at` order `sort_values` returned
(the row order affects only which row of a group wins `first()`, never which
rows form groups): `groupby("student_id")` drops null keys, `first()` takes
each column's first non-null value per group, the keys come out ascending,
and the final `pd.DataFrame(...).sort_values("학번")` raises `KeyError` when
the record list is empty, exactly as in the typed model. -/
def create_summary_grade_sheet_raw_of (sorted : List RawSubmission) :
    Except String (List RawSummaryRow) :=
  let summary_data :=
    (List.insertionSort sidLe (raw_student_ids sorted)).map (mkRawSummaryRow sorted)
  if summary_data.isEmpty then Except.error "KeyError: 학번"
  else Except.ok (List.insertionSort rawRowSidLe summary_data)

/-- A CSV cell for a nullable value: a missing value renders empty. -/
def cellStr (c : Option String) : String :=
  c.getD ""

/-- The summary record as the (column, value) pairs of the source dict
(teacher.py 159-171), in dict-literal order. -/
def summary_record (r : SummaryRow) : List (String × String) :=
  [("학번", r.student_id), ("제출일시", r.submitted_at),
   ("문항1", r.q1), ("문항2", r.q2), ("문항3", r.q3),
   ("정답개수", toString r.correct_count), ("총점", toString r.total)]

/-- The column headers of the summary sheet. -/
def summary_columns : List String :=
  ["학번", "제출일시", "문항1", "문항2", "문항3", "정답개수", "총점"]

/-- The detailed record as the (column, value) pairs of the source dict
(teacher.py 118-144), in dict-literal order. -/
def detailed_record (r : DetailedRow) : List (String × String) :=
  [("학번", r.student_id), ("제출일시", r.submitted_at),
   ("문항1_결과", r.q1_result), ("문항1_점수", toString r.q1_score),
   ("문항1_답안", r.q1_answer), ("문항1_피드백", cellStr r.q1_feedback),
   ("문항2_결과", r.q2_result), ("문항2_점수", toString r.q2_score),
   ("문항2_답안", r.q2_answer), ("문항2_피드백", cellStr r.q2_feedback),
   ("문항3_결과", r.q3_result), ("문항3_점수", toString r.q3_score),
   ("문항3_답안", r.q3_answer), ("문항3_피드백", cellStr r.q3_feedback),
   ("총점", toString r.total)]

/-- The column headers of the detailed sheet. -/
def detailed_columns : List String :=
  ["학번", "제출일시",
   "문항1_결과", "문항1_점수", "문항1_답안", "문항1_피드백",
   "문항2_결과", "문항2_점수", "문항2_답안", "문항2_피드백",
   "문항3_결과", "문항3_점수", "문항3_답안", "문항3_피드백",
   "총점"]

/-- The 전체 데이터 (raw) download `df.to_csv` (teacher.py 433): one record per
frame row with every loaded column plus the derived 제출일시 and 결과1..3
columns appended at ingestion (teacher.py 231-237). -/
def raw_export_record (s : Submission) : List (String × String) :=
  [("student_id", s.student_id), ("created_at", toString s.created_at),
   ("model", s.model),
   ("answer_1", s.answer_1), ("feedback_1", cellStr s.feedback_1),
   ("guideline_1", s.guideline_1),
   ("answer_2", s.answer_2), ("feedback_2", cellStr s.feedback_2),
   ("guideline_2", s.guideline_2),
   ("answer_3", s.answer_3), ("feedback_3", cellStr s.feedback_3),
   ("guideline_3", s.guideline_3),
   ("제출일시", format_submitted s.created_at),
   ("결과1", result_1 s), ("결과2", result_2 s), ("결과3", result_3 s)]

/-- The column headers of the raw download. -/
def raw_export_columns : List String :=
  ["student_id", "created_at", "model",
   "answer_1", "feedback_1", "guideline_1",
   "answer_2", "feedback_2", "guideline_2",
   "answer_3", "feedback_3", "guideline_3",
   "제출일시", "결과1", "결과2", "결과3"]

/-- The column headers of the 문항별 통계 download (teacher.py 445-462). -/
def stats_columns : List String :=
  ["문항", "정답(O)", "오답(X)", "정답률(%)"]

deriving instance DecidableEq for Except

/-- Concrete data: a submission of student "A" at time 1 (the end-to-end
scenario of the spec, §8). -/
def wsubA1 : Submission where
  student_id := "A"
  created_at := 1
  model := "grader-1"
  answer_1 := "ans1"
  answer_2 := "ans2"
  answer_3 := "ans3"
  feedback_1 := some "O: ok"
  feedback_2 := some "X: no"
  feedback_3 := some ""
  guideline_1 := "g1"
  guideline_2 := "g2"
  guideline_3 := "g3"

/-- Concrete data: a later submission of student "A" at time 2. -/
def wsubA2 : Submission where
  student_id := "A"
  created_at := 2
  model := "grader-1"
  answer_1 := "ans1b"
  answer_2 := "ans2b"
  answer_3 := "ans3b"
  feedback_1 := some "X: no"
  feedback_2 := some "O: ok"
  feedback_3 := some "O: ok"
  guideline_1 := "g1"
  guideline_2 := "g2"
  guideline_3 := "g3"

/-- Concrete data: a submission of student "B" at time 1. -/
def wsubB : Submission where
  student_id := "B"
  created_at := 1
  model := "grader-1"
  answer_1 := "b1"
  answer_2 := "b2"
  answer_3 := "b3"
  feedback_1 := some "O: fine"
  feedback_2 := some "maybe"
  feedback_3 := none
  guideline_1 := "g1"
  guideline_2 := "g2"
  guideline_3 := "g3"

/-- Concrete data: first of two submissions of student "T" with identical
timestamps (exercises the tie-break). -/
def wtie1 : Submission where
  student_id := "T"
  created_at := 5
  model := "grader-1"
  answer_1 := "first"
  answer_2 := "t2"
  answer_3 := "t3"
  feedback_1 := some "O: yes"
  feedback_2 := some "X: no"
  feedback_3 := some "X: no"
  guideline_1 := "g1"
  guideline_2 := "g2"
  guideline_3 := "g3"

/-- Concrete data: second submission of student "T", same timestamp as
`wtie1`. -/
def wtie2 : Submission where
  student_id := "T"
  created_at := 5
  model := "grader-1"
  answer_1 := "second"
  answer_2 := "u2"
  answer_3 := "u3"
  feedback_1 := some "X: no"
  feedback_2 := some "O: yes"
  feedback_3 := some "O: yes"
  guideline_1 := "g1"
  guideline_2 := "g2"
  guideline_3 := "g3"

/-- Concrete data: a frame row whose required `student_id` field is absent,
every other field present. -/
def rawNoSid : RawSubmission where
  student_id := none
  submitted_at := some "2024-01-01 10:00"
  result_1 := some "O"
  result_2 := some "X"
  result_3 := some "?"
  answer_1 := some "a1"
  answer_2 := some "a2"
  answer_3 := some "a3"
  feedback_1 := some "O: good"
  feedback_2 := some "X: wrong"
  feedback_3 := some "hmm"

/-! ## Helper lemmas -/

lemma calculate_score_le_one (r : String) : calculate_score r ≤ 1 := by
  unfold calculate_score
  split <;> omega

lemma calculate_score_cell_some (r : String) :
    calculate_score_cell (some r) = calculate_score r := by
  simp [calculate_score_cell, calculate_score]

lemma extract_result_mem (f : Option String) :
    extract_result f = "O" ∨ extract_result f = "X" ∨ extract_result f = "?" := by
  rcases f with _ | f
  · exact Or.inr (Or.inr rfl)
  · simp only [extract_result]
    split_ifs <;> simp

lemma py_startswith_O_ne_empty {s : String} (h : py_startswith s "O:" = true) :
    s ≠ "" := by
  intro hs
  subst hs
  exact absurd h (by decide)

lemma py_startswith_X_ne_empty {s : String} (h : py_startswith s "X:" = true) :
    s ≠ "" := by
  intro hs
  subst hs
  exact absurd h (by decide)

lemma py_startswith_X_not_O {s : String} (h : py_startswith s "X:" = true) :
    py_startswith s "O:" = false := by
  rw [py_startswith, List.isPrefixOf_iff_prefix] at h
  rw [py_startswith, ← Bool.not_eq_true, List.isPrefixOf_iff_prefix]
  intro hO
  obtain ⟨t, ht⟩ := h
  rw [← ht, show ("X:".data) = ['X', ':'] from rfl] at hO
  rw [show ("O:".data) = ['O', ':'] from rfl] at hO
  simp only [List.cons_append, List.nil_append, List.cons_prefix_cons] at hO
  exact absurd hO.1 (by decide)

lemma find?_eq_head?_filter {α : Type} (p : α → Bool) :
    ∀ l : List α, l.find? p = (l.filter p).head?
  | [] => rfl
  | a :: l => by
    by_cases h : p a
    · rw [List.find?_cons_of_pos _ h, List.filter_cons_of_pos h, List.head?_cons]
    · rw [List.find?_cons_of_neg _ h, List.filter_cons_of_neg h,
        find?_eq_head?_filter p l]

/-- In a list sorted by descending `created_at`, the first element satisfying
`p` has the maximal `created_at` among all elements satisfying `p`. -/
lemma sorted_find?_max {l : List Submission} (hs : List.Sorted byCreatedDesc l)
    {p : Submission → Bool} {s : Submission} (h : l.find? p = some s) :
    ∀ t ∈ l, p t = true → t.created_at ≤ s.created_at := by
  induction l with
  | nil => simp at h
  | cons a l ih =>
    obtain ⟨ha, hl⟩ := List.sorted_cons.mp hs
    intro t ht hpt
    by_cases hpa : p a = true
    · rw [List.find?_cons_of_pos _ hpa] at h
      obtain rfl : a = s := Option.some.inj h
      rcases List.mem_cons.mp ht with rfl | ht
      · exact Nat.le_refl _
      · exact ha t ht
    · rw [List.find?_cons_of_neg _ hpa] at h
      rcases List.mem_cons.mp ht with rfl | ht
      · exact absurd hpt hpa
      · exact ih hl h t ht hpt

lemma mem_sortDescByCreated {df : List Submission} {s : Submission}
    (h : s ∈ df) : s ∈ sortDescByCreated df :=
  (List.mem_insertionSort byCreatedDesc).mpr h

/-- For any student occurring in the frame, the sorted-descending frame has a
first row of that student; it is one of the student's rows and carries the
maximal `created_at` among them. -/
lemma find_latest (df : List Submission) (sid : String)
    (hsid : sid ∈ df.map Submission.student_id) :
    ∃ s, (sortDescByCreated df).find? (fun t => t.student_id == sid) = some s
      ∧ s ∈ df ∧ s.student_id = sid
      ∧ ∀ t ∈ df, t.student_id = sid → t.created_at ≤ s.created_at := by
  obtain ⟨a, ha, hasid⟩ := List.mem_map.mp hsid
  have hsome : ((sortDescByCreated df).find? (fun t => t.student_id == sid)).isSome := by
    rw [List.find?_isSome]
    exact ⟨a, mem_sortDescByCreated ha, by simp [hasid]⟩
  obtain ⟨s, hs⟩ := Option.isSome_iff_exists.mp hsome
  have hsmem : s ∈ df :=
    (List.mem_insertionSort byCreatedDesc).mp (List.mem_of_find?_eq_some hs)
  have hssid : s.student_id = sid := by
    simpa using List.find?_some hs
  refine ⟨s, hs, hsmem, hssid, fun t ht hts => ?_⟩
  exact sorted_find?_max (List.sorted_insertionSort byCreatedDesc df) hs t
    (mem_sortDescByCreated ht) (by simp [hts])

/-- The first sorted-frame row of student `sid` is the element of
`reduce_to_latest` for that student, and the only one. -/
lemma reduce_to_latest_spec (df : List Submission) (sid : String) {s : Submission}
    (hsid : sid ∈ df.map Submission.student_id)
    (hfind : (sortDescByCreated df).find? (fun t => t.student_id == sid) = some s) :
    s ∈ reduce_to_latest df ∧
      ∀ t ∈ reduce_to_latest df, t.student_id = sid → t = s := by
  constructor
  · rw [reduce_to_latest, List.mem_filterMap]
    refine ⟨sid, ?_, hfind⟩
    rw [List.mem_insertionSort, student_ids]
    exact List.mem_dedup.mpr hsid
  · intro t ht hts
    rw [reduce_to_latest, List.mem_filterMap] at ht
    obtain ⟨sid', _, hfind'⟩ := ht
    have hts' : t.student_id = sid' := by
      simpa using List.find?_some hfind'
    rw [hts] at hts'
    rw [← hts'] at hfind'
    exact Option.some.inj (hfind'.symm.trans hfind)

/-- Inversion of the summary builder's success case. -/
lemma create_summary_ok {df : List Submission} {rows : List SummaryRow}
    (h : create_summary_grade_sheet df = Except.ok rows) :
    rows = List.insertionSort rowSidLe ((reduce_to_latest df).map mkSummaryRow) := by
  simp only [create_summary_grade_sheet] at h
  split_ifs at h
  exact (Except.ok.inj h).symm

lemma filterMap_map_eq {α β : Type} (f : α → Option β) (g : β → α) :
    ∀ l : List α, (∀ a ∈ l, ∃ b, f a = some b ∧ g b = a) →
      (l.filterMap f).map g = l
  | [], _ => rfl
  | a :: l, h => by
    obtain ⟨b, hb, hg⟩ := h a (List.mem_cons_self a l)
    rw [List.filterMap_cons_some hb, List.map_cons, hg,
      filterMap_map_eq f g l (fun x hx => h x (List.mem_cons_of_mem a hx))]

/-- The reduction keeps exactly the group keys: its rows' `student_id`s are
the distinct ids sorted ascending. -/
lemma reduce_map_sid (df : List Submission) :
    (reduce_to_latest df).map Submission.student_id =
      List.insertionSort sidLe (student_ids df) := by
  rw [reduce_to_latest]
  apply filterMap_map_eq
  intro sid hsid
  rw [List.mem_insertionSort, student_ids] at hsid
  obtain ⟨s, hfind, _, hs, _⟩ := find_latest df sid (List.mem_dedup.mp hsid)
  exact ⟨s, hfind, hs⟩

/-- Glue: on a fully-present row, the nullable-cell builder computes exactly
the typed builder's record, each value wrapped in `some`. -/
lemma mkRawDetailedRow_toRaw (s : Submission) :
    mkRawDetailedRow s.toRaw =
      { student_id := some (mkDetailedRow s).student_id
        submitted_at := some (mkDetailedRow s).submitted_at
        q1_result := some (mkDetailedRow s).q1_result
        q1_score := (mkDetailedRow s).q1_score
        q1_answer := some (mkDetailedRow s).q1_answer
        q1_feedback := (mkDetailedRow s).q1_feedback
        q2_result := some (mkDetailedRow s).q2_result
        q2_score := (mkDetailedRow s).q2_score
        q2_answer := some (mkDetailedRow s).q2_answer
        q2_feedback := (mkDetailedRow s).q2_feedback
        q3_result := some (mkDetailedRow s).q3_result
        q3_score := (mkDetailedRow s).q3_score
        q3_answer := some (mkDetailedRow s).q3_answer
        q3_feedback := (mkDetailedRow s).q3_feedback
        total := (mkDetailedRow s).total } := by
  simp only [mkRawDetailedRow, Submission.toRaw, mkDetailedRow,
    calculate_score_cell_some]

lemma sortDescByCreated_is_sort (df : List Submission) :
    IsSortValuesDesc df (sortDescByCreated df) :=
  ⟨List.perm_insertionSort byCreatedDesc df,
    List.sorted_insertionSort byCreatedDesc df⟩

/-- For any admissible sorted frame and any student occurring in the input,
the sorted frame has a first row of that student; it is one of the student's
rows and carries the maximal `created_at` among them. -/
lemma find_latest_of (df sorted : List Submission) (sid : String)
    (hsort : IsSortValuesDesc df sorted)
    (hsid : sid ∈ df.map Submission.student_id) :
    ∃ s, sorted.find? (fun t => t.student_id == sid) = some s
      ∧ s ∈ df ∧ s.student_id = sid
      ∧ ∀ t ∈ df, t.student_id = sid → t.created_at ≤ s.created_at := by
  obtain ⟨hperm, hsorted⟩ := hsort
  obtain ⟨a, ha, hasid⟩ := List.mem_map.mp hsid
  have hsome : (sorted.find? (fun t => t.student_id == sid)).isSome := by
    rw [List.find?_isSome]
    exact ⟨a, hperm.mem_iff.mpr ha, by simp [hasid]⟩
  obtain ⟨s, hs⟩ := Option.isSome_iff_exists.mp hsome
  have hsmem : s ∈ df := hperm.mem_iff.mp (List.mem_of_find?_eq_some hs)
  have hssid : s.student_id = sid := by
    simpa using List.find?_some hs
  refine ⟨s, hs, hsmem, hssid, fun t ht hts => ?_⟩
  exact sorted_find?_max hsorted hs t (hperm.mem_iff.mpr ht) (by simp [hts])

/-- The first sorted-frame row of student `sid` is the element of
`reduce_to_latest_of` for that student, and the only one, for any sorted
frame. -/
lemma reduce_to_latest_of_spec (df sorted : List Submission) (sid : String)
    {s : Submission} (hsid : sid ∈ df.map Submission.student_id)
    (hfind : sorted.find? (fun t => t.student_id == sid) = some s) :
    s ∈ reduce_to_latest_of df sorted ∧
      ∀ t ∈ reduce_to_latest_of df sorted, t.student_id = sid → t = s := by
  constructor
  · rw [reduce_to_latest_of, List.mem_filterMap]
    refine ⟨sid, ?_, hfind⟩
    rw [List.mem_insertionSort, student_ids]
    exact List.mem_dedup.mpr hsid
  · intro t ht hts
    rw [reduce_to_latest_of, List.mem_filterMap] at ht
    obtain ⟨sid', _, hfind'⟩ := ht
    have hts' : t.student_id = sid' := by
      simpa using List.find?_some hfind'
    rw [hts] at hts'
    rw [← hts'] at hfind'
    exact Option.some.inj (hfind'.symm.trans hfind)

/-- Inversion of the generalized summary builder's success case. -/
lemma create_summary_of_ok {df sorted : List Submission}
    {rows : List SummaryRow}
    (h : create_summary_grade_sheet_of df sorted = Except.ok rows) :
    rows = List.insertionSort rowSidLe
      ((reduce_to_latest_of df sorted).map mkSummaryRow) := by
  simp only [create_summary_grade_sheet_of] at h
  split_ifs at h
  exact (Except.ok.inj h).symm

/-- A null-keyed row contributes no group key: pandas `groupby` drops it. -/
lemma raw_student_ids_drop {r : RawSubmission} (h : r.student_id = none)
    (pre post : List RawSubmission) :
    raw_student_ids (pre ++ r :: post) = raw_student_ids (pre ++ post) := by
  simp [raw_student_ids, List.filterMap_append, List.filterMap_cons, h]

/-- A null-keyed row belongs to no group, so it feeds no group's `first()`. -/
lemma firstNonNull_drop {r : RawSubmission} (h : r.student_id = none)
    (pre post : List RawSubmission) (sid : String)
    (get : RawSubmission → Option String) :
    firstNonNull (pre ++ r :: post) sid get
      = firstNonNull (pre ++ post) sid get := by
  simp [firstNonNull, List.filter_append, List.filter_cons, h]

lemma mkRawSummaryRow_drop {r : RawSubmission} (h : r.student_id = none)
    (pre post : List RawSubmission) (sid : String) :
    mkRawSummaryRow (pre ++ r :: post) sid
      = mkRawSummaryRow (pre ++ post) sid := by
  simp only [mkRawSummaryRow, firstNonNull_drop h]

/-- The summary builder's output is unchanged by the presence of a
null-`student_id` row anywhere in the frame: the row is silently dropped. -/
lemma create_summary_raw_drop {r : RawSubmission} (h : r.student_id = none)
    (pre post : List RawSubmission) :
    create_summary_grade_sheet_raw_of (pre ++ r :: post)
      = create_summary_grade_sheet_raw_of (pre ++ post) := by
  have hm : mkRawSummaryRow (pre ++ r :: post) = mkRawSummaryRow (pre ++ post) :=
    funext (fun sid => mkRawSummaryRow_drop h pre post sid)
  simp only [create_summary_grade_sheet_raw_of, raw_student_ids_drop h, hm]

/-! ## Claim theorems -/

/-- Counterexample for **C1**: the tie-break clause does not hold of the
code.  `df.sort_values("created_at", ascending=False)` with the source's
default `kind='quicksort'` guarantees only a descending-sorted permutation
(`IsSortValuesDesc`); pandas documents that kind as not stable, so the order
of rows with equal timestamps is implementation-defined.  For the concrete
input `[wtie1, wtie2]` (same student "T", identical timestamps), the frame
`[wtie2, wtie1]` is an admissible sort output; under it the pipeline builds
the summary row for "T" from `wtie2`, whereas the row a stable sort presents
first is `wtie1`, and the two summary rows differ.  So "the one retained is
the row a stable sort presents first" is not guaranteed by the program. -/
theorem latest_tie_break_counterexample :
    IsSortValuesDesc [wtie1, wtie2] [wtie2, wtie1]
    ∧ ((sortDescByCreated [wtie1, wtie2]).filter
        (fun t => t.student_id == "T")).head? = some wtie1
    ∧ create_summary_grade_sheet_of [wtie1, wtie2] [wtie2, wtie1]
        = Except.ok [mkSummaryRow wtie2]
    ∧ mkSummaryRow wtie2 ≠ mkSummaryRow wtie1 :=
  ⟨⟨List.Perm.swap wtie1 wtie2 [], by decide⟩, by decide, by decide, by decide⟩

/-- **C1 as amended**: for every submission sequence, every admissible output
of the non-stable descending sort, and every `student_id` occurring in the
sequence, the summary sheet's row for that student is built from a submission
of that student with the maximum `created_at` -- namely the student's first
row in the sort's actual output.  When two of the student's submissions have
identical timestamps, which of them is retained is determined by the
implementation-defined tie order of that output, not in general by the
stable-sort order. -/
theorem summary_uses_latest_amended (df sorted : List Submission) (sid : String)
    (hsort : IsSortValuesDesc df sorted)
    (hsid : sid ∈ df.map Submission.student_id) :
    ∃ s, sorted.find? (fun t => t.student_id == sid) = some s
      ∧ s ∈ df ∧ s.student_id = sid
      ∧ (∀ t ∈ df, t.student_id = sid → t.created_at ≤ s.created_at)
      ∧ (sorted.filter (fun t => t.student_id == sid)).head? = some s
      ∧ (∀ rows, create_summary_grade_sheet_of df sorted = Except.ok rows →
          mkSummaryRow s ∈ rows ∧
            ∀ r ∈ rows, r.student_id = sid → r = mkSummaryRow s) := by
  obtain ⟨s, hfind, hmem, hsids, hmax⟩ := find_latest_of df sorted sid hsort hsid
  obtain ⟨hred, huniq⟩ := reduce_to_latest_of_spec df sorted sid hsid hfind
  refine ⟨s, hfind, hmem, hsids, hmax, ?_, ?_⟩
  · rw [← find?_eq_head?_filter]
    exact hfind
  · intro rows hrows
    rw [create_summary_of_ok hrows]
    constructor
    · rw [List.mem_insertionSort]
      exact List.mem_map_of_mem mkSummaryRow hred
    · intro r hr hrs
      rw [List.mem_insertionSort] at hr
      obtain ⟨u, hu, rfl⟩ := List.mem_map.mp hr
      rw [huniq u hu hrs]

/-- Witness for the amended C1 at the concrete tie input, instantiated with
the admissible non-stable frame `[wtie2, wtie1]`. -/
theorem summary_uses_latest_amended_witness :
    IsSortValuesDesc [wtie1, wtie2] [wtie2, wtie1]
    ∧ ("T" ∈ [wtie1, wtie2].map Submission.student_id)
    ∧ (∃ s, ([wtie2, wtie1] : List Submission).find?
          (fun t => t.student_id == "T") = some s
      ∧ s ∈ [wtie1, wtie2] ∧ s.student_id = "T"
      ∧ (∀ t ∈ [wtie1, wtie2], t.student_id = "T" →
          t.created_at ≤ s.created_at)
      ∧ (([wtie2, wtie1] : List Submission).filter
          (fun t => t.student_id == "T")).head? = some s
      ∧ (∀ rows, create_summary_grade_sheet_of [wtie1, wtie2] [wtie2, wtie1]
            = Except.ok rows →
          mkSummaryRow s ∈ rows ∧
            ∀ r ∈ rows, r.student_id = "T" → r = mkSummaryRow s)) :=
  ⟨⟨List.Perm.swap wtie1 wtie2 [], by decide⟩, by decide,
    summary_uses_latest_amended [wtie1, wtie2] [wtie2, wtie1] "T"
      ⟨List.Perm.swap wtie1 wtie2 [], by decide⟩ (by decide)⟩

/-- **C2**: the verdict extractor is total on arbitrary feedback: absent or
empty feedback yields "?" (Unknown); a feedback starting with the literal
prefix "O:" yields "O" (Correct); one starting with "X:" yields "X"
(Incorrect); anything else yields "?"; and the result is always exactly one
of the three verdict strings. -/
theorem extract_result_is_total (f : Option String) :
    (extract_result f = "O" ∨ extract_result f = "X" ∨ extract_result f = "?")
    ∧ (f = none → extract_result f = "?")
    ∧ (f = some "" → extract_result f = "?")
    ∧ (∀ s, f = some s → py_startswith s "O:" = true → extract_result f = "O")
    ∧ (∀ s, f = some s → py_startswith s "X:" = true → extract_result f = "X")
    ∧ (∀ s, f = some s → py_startswith s "O:" = false →
        py_startswith s "X:" = false → extract_result f = "?") := by
  refine ⟨extract_result_mem f, ?_, ?_, ?_, ?_, ?_⟩
  · rintro rfl
    rfl
  · rintro rfl
    rfl
  · rintro s rfl h
    have hne : s ≠ "" := py_startswith_O_ne_empty h
    simp [extract_result, hne, h]
  · rintro s rfl h
    have hne : s ≠ "" := py_startswith_X_ne_empty h
    have hO : py_startswith s "O:" = false := py_startswith_X_not_O h
    simp [extract_result, hne, h, hO]
  · rintro s rfl hO hX
    by_cases hs : s = "" <;> simp [extract_result, hs, hO, hX]

/-- Witness for C2 at concrete feedback strings. -/
theorem extract_result_is_total_witness :
    extract_result (some "X: wrong") = "X" ∧ extract_result none = "?" :=
  ⟨(extract_result_is_total (some "X: wrong")).2.2.2.2.1 "X: wrong" rfl
      (by decide),
    (extract_result_is_total none).2.1 rfl⟩

/-- Counterexample for **C3**: the code has no answers-only sheet.  The only
latest-per-student export (the summary sheet, teacher.py 150-174, 403-422)
carries no answer column at all, while both exports that do carry answer text
-- the detailed sheet (112-147, 382-401) and the raw dump (431-440) -- also
carry the feedback text they were supposed to omit; the remaining download
(문항별 통계, 442-473) has neither answers nor per-student rows.  So no
export has the claimed shape. -/
theorem answers_only_sheet_counterexample :
    (summary_record (mkSummaryRow wsubA1)).map Prod.fst = summary_columns
    ∧ ("문항1_답안" ∉ summary_columns ∧ "answer_1" ∉ summary_columns)
    ∧ ("문항1_답안" ∈ detailed_columns ∧ "문항1_피드백" ∈ detailed_columns)
    ∧ ("answer_1" ∈ raw_export_columns ∧ "feedback_1" ∈ raw_export_columns)
    ∧ ("문항" ∈ stats_columns ∧ "student_id" ∉ stats_columns
        ∧ "answer_1" ∉ stats_columns) := by
  decide

/-- **C3 as amended**: the system provides two grade-sheet builders (full
detail and latest-summary) plus a raw dump and a per-question statistics
download; there is no answers-only sheet.  The latest-per-student summary
carries exactly student_id, timestamp, per-question verdicts, correct count
and total score -- no answer text -- and every export that carries answer
text (detailed, raw) also carries feedback text. -/
theorem answers_only_sheet_amended (r : SummaryRow) (d : DetailedRow)
    (s : Submission) :
    (summary_record r).map Prod.fst = summary_columns
    ∧ (detailed_record d).map Prod.fst = detailed_columns
    ∧ (raw_export_record s).map Prod.fst = raw_export_columns
    ∧ ("문항1_답안" ∉ summary_columns ∧ "answer_1" ∉ summary_columns)
    ∧ ("문항1_답안" ∈ detailed_columns ∧ "문항1_피드백" ∈ detailed_columns)
    ∧ ("answer_1" ∈ raw_export_columns ∧ "feedback_1" ∈ raw_export_columns) := by
  exact ⟨rfl, rfl, rfl, by decide, by decide, by decide⟩

/-- Counterexample for **C4**: on an input whose row lacks the required
`student_id` field, the detailed builder does not fail with any error at all:
pandas row indexing returns null for an absent value, the loop body runs, and
a complete report row is produced with the null carried through (`학번` =
null) -- the build succeeds instead of failing fast with `MissingField`. -/
theorem missing_field_counterexample :
    create_detailed_grade_sheet_raw [rawNoSid] =
      [{ student_id := none
         submitted_at := some "2024-01-01 10:00"
         q1_result := some "O"
         q1_score := 1
         q1_answer := some "a1"
         q1_feedback := some "O: good"
         q2_result := some "X"
         q2_score := 0
         q2_answer := some "a2"
         q2_feedback := some "X: wrong"
         q3_result := some "?"
         q3_score := 0
         q3_answer := some "a3"
         q3_feedback := some "hmm"
         total := 1 }] := by
  decide

/-- **C4 as amended**: for every input containing a row on which a required
field is absent, the builders neither fail with a `MissingField` error nor
substitute a non-null default.  The detailed builder emits one report row per
input row, carrying the absent value through as null (a null verdict scores
0).  The summary builder behaves exactly as if a row with a null
`student_id` were not in the frame at all -- pandas `groupby` drops null
group keys -- so such a row is silently ignored, never reported (no
`MissingField` error type exists in the code). -/
theorem missing_field_amended (df : List RawSubmission) (r : RawSubmission)
    (hmem : r ∈ df) (hmiss : r.student_id = none) :
    ((create_detailed_grade_sheet_raw df).length = df.length
      ∧ ∃ rec ∈ create_detailed_grade_sheet_raw df,
          rec.student_id = none
          ∧ rec.q1_answer = r.answer_1
          ∧ rec.q1_feedback = r.feedback_1
          ∧ rec.total = calculate_score_cell r.result_1
              + calculate_score_cell r.result_2
              + calculate_score_cell r.result_3)
    ∧ (∀ pre post : List RawSubmission,
        create_summary_grade_sheet_raw_of (pre ++ r :: post)
          = create_summary_grade_sheet_raw_of (pre ++ post)) := by
  refine ⟨⟨List.length_map df mkRawDetailedRow, mkRawDetailedRow r, ?_, ?_⟩, ?_⟩
  · exact List.mem_map_of_mem mkRawDetailedRow hmem
  · exact ⟨hmiss, rfl, rfl, rfl⟩
  · intro pre post
    exact create_summary_raw_drop hmiss pre post

/-- Witness for the amended C4 at the concrete one-row input missing
`student_id`. -/
theorem missing_field_amended_witness :
    ((create_detailed_grade_sheet_raw [rawNoSid]).length = [rawNoSid].length
      ∧ ∃ rec ∈ create_detailed_grade_sheet_raw [rawNoSid],
          rec.student_id = none
          ∧ rec.q1_answer = rawNoSid.answer_1
          ∧ rec.q1_feedback = rawNoSid.feedback_1
          ∧ rec.total = calculate_score_cell rawNoSid.result_1
              + calculate_score_cell rawNoSid.result_2
              + calculate_score_cell rawNoSid.result_3)
    ∧ (∀ pre post : List RawSubmission,
        create_summary_grade_sheet_raw_of (pre ++ rawNoSid :: post)
          = create_summary_grade_sheet_raw_of (pre ++ post)) :=
  missing_field_amended [rawNoSid] rawNoSid (by decide) (by decide)

/-- **C5**, evaluated at the failing input (zero rows): the detailed builder
returns an empty document, but the summary builder fails -- its final
`pd.DataFrame([]).sort_values("학번")` raises `KeyError` because an empty
frame has no 학번 column -- contradicting the requirement that every builder
produce a well-formed empty document on zero rows. -/
theorem builders_on_empty_eval :
    create_detailed_grade_sheet [] = []
    ∧ create_summary_grade_sheet [] = Except.error "KeyError: 학번" :=
  ⟨rfl, rfl⟩

/-- **C6**, evaluated at the failing input (zero submissions): the displayed
rate (teacher.py 283) is guarded and reports 0, but the 문항별 통계 download
(457-461) divides by `len(df)` unguarded, so with zero submissions its 0/0
produces no numeric rate at all (NaN) instead of the required 0.0. -/
theorem stats_rate_zero_eval (i : Fin 3) :
    stats_rate_download [] i = none ∧ correct_rate_display [] i = 0 :=
  ⟨rfl, rfl⟩

/-- **C7**: `calculate_score` maps the Correct verdict "O" to 1 and both "X"
and "?" to 0, and in every row of the detailed and the summary sheet the
total score (총점) is the sum of the three per-question scores, hence lies
between 0 and 3. -/
theorem score_of_and_total_bound :
    (calculate_score "O" = 1 ∧ calculate_score "X" = 0 ∧ calculate_score "?" = 0)
    ∧ (∀ df : List Submission, ∀ row ∈ create_detailed_grade_sheet df,
        row.total = row.q1_score + row.q2_score + row.q3_score ∧ row.total ≤ 3)
    ∧ (∀ (df : List Submission) (rows : List SummaryRow),
        create_summary_grade_sheet df = Except.ok rows →
        ∀ row ∈ rows,
          row.total = calculate_score row.q1 + calculate_score row.q2 +
              calculate_score row.q3
          ∧ row.total ≤ 3) := by
  refine ⟨⟨rfl, rfl, rfl⟩, ?_, ?_⟩
  · intro df row hrow
    obtain ⟨s, _, rfl⟩ := List.mem_map.mp hrow
    refine ⟨rfl, ?_⟩
    have h1 := calculate_score_le_one (result_1 s)
    have h2 := calculate_score_le_one (result_2 s)
    have h3 := calculate_score_le_one (result_3 s)
    show calculate_score (result_1 s) + calculate_score (result_2 s) +
        calculate_score (result_3 s) ≤ 3
    omega
  · intro df rows hok row hrow
    rw [create_summary_ok hok, List.mem_insertionSort] at hrow
    obtain ⟨s, _, rfl⟩ := List.mem_map.mp hrow
    refine ⟨rfl, ?_⟩
    have h1 := calculate_score_le_one (result_1 s)
    have h2 := calculate_score_le_one (result_2 s)
    have h3 := calculate_score_le_one (result_3 s)
    show calculate_score (result_1 s) + calculate_score (result_2 s) +
        calculate_score (result_3 s) ≤ 3
    omega

/-- Witness for C7 on the concrete two-submission scenario. -/
theorem score_of_and_total_bound_witness :
    ((mkDetailedRow wsubA1).total = (mkDetailedRow wsubA1).q1_score +
        (mkDetailedRow wsubA1).q2_score + (mkDetailedRow wsubA1).q3_score
      ∧ (mkDetailedRow wsubA1).total ≤ 3)
    ∧ ((mkSummaryRow wsubA2).total = calculate_score (mkSummaryRow wsubA2).q1 +
        calculate_score (mkSummaryRow wsubA2).q2 +
        calculate_score (mkSummaryRow wsubA2).q3
      ∧ (mkSummaryRow wsubA2).total ≤ 3) :=
  ⟨score_of_and_total_bound.2.1 [wsubA1, wsubA2] (mkDetailedRow wsubA1)
      (by decide),
    score_of_and_total_bound.2.2 [wsubA1, wsubA2]
      [mkSummaryRow wsubA2] (by decide) (mkSummaryRow wsubA2) (by decide)⟩

/-- **C8**: on every non-empty submission sequence the summary build succeeds
and contains exactly one row per distinct `student_id` -- its length is the
number of distinct ids, its ids are exactly the distinct input ids with no
duplicate -- and its rows are sorted ascending by `student_id`. -/
theorem summary_cardinality (df : List Submission) (hne : df ≠ []) :
    ∃ rows, create_summary_grade_sheet df = Except.ok rows
      ∧ rows.length = (df.map Submission.student_id).dedup.length
      ∧ List.Perm (rows.map SummaryRow.student_id)
          (df.map Submission.student_id).dedup
      ∧ (rows.map SummaryRow.student_id).Nodup
      ∧ List.Sorted rowSidLe rows := by
  have hmap : ((reduce_to_latest df).map mkSummaryRow).map SummaryRow.student_id
      = List.insertionSort sidLe (student_ids df) := by
    rw [List.map_map]
    exact reduce_map_sid df
  have hlen : ((reduce_to_latest df).map mkSummaryRow).length
      = (student_ids df).length := by
    have := congrArg List.length hmap
    simpa using this
  have hne' : (reduce_to_latest df).map mkSummaryRow ≠ [] := by
    intro h0
    rw [h0] at hlen
    have : student_ids df = [] := List.eq_nil_of_length_eq_zero hlen.symm
    rw [student_ids, List.dedup_eq_nil, List.map_eq_nil_iff] at this
    exact hne this
  refine ⟨List.insertionSort rowSidLe ((reduce_to_latest df).map mkSummaryRow),
    ?_, ?_, ?_, ?_, List.sorted_insertionSort rowSidLe _⟩
  · simp only [create_summary_grade_sheet]
    rw [if_neg]
    simp only [List.isEmpty_iff]
    exact hne'
  · rw [List.length_insertionSort, hlen, student_ids]
  · have p1 := (List.perm_insertionSort rowSidLe
      ((reduce_to_latest df).map mkSummaryRow)).map SummaryRow.student_id
    rw [hmap] at p1
    exact p1.trans (List.perm_insertionSort sidLe _)
  · have p1 := (List.perm_insertionSort rowSidLe
      ((reduce_to_latest df).map mkSummaryRow)).map SummaryRow.student_id
    rw [hmap] at p1
    have hperm := p1.trans (List.perm_insertionSort sidLe _)
    exact hperm.symm.nodup (List.nodup_dedup _)

/-- Witness for C8 on the concrete three-submission scenario (two students). -/
theorem summary_cardinality_witness :
    ([wsubA1, wsubA2, wsubB] ≠ ([] : List Submission))
    ∧ (∃ rows, create_summary_grade_sheet [wsubA1, wsubA2, wsubB] =
          Except.ok rows
        ∧ rows.length =
            ([wsubA1, wsubA2, wsubB].map Submission.student_id).dedup.length
        ∧ List.Perm (rows.map SummaryRow.student_id)
            ([wsubA1, wsubA2, wsubB].map Submission.student_id).dedup
        ∧ (rows.map SummaryRow.student_id).Nodup
        ∧ List.Sorted rowSidLe rows) :=
  ⟨by decide, summary_cardinality [wsubA1, wsubA2, wsubB] (by decide)⟩

/-- **C9**: in every summary-sheet row, the 정답개수 (correct-answer count)
field equals the 총점 (total score) field; the source computes both by the
same sum of the three per-question scores. -/
theorem summary_correct_count_eq_total (df : List Submission)
    (rows : List SummaryRow)
    (hok : create_summary_grade_sheet df = Except.ok rows) :
    ∀ r ∈ rows, r.correct_count = r.total := by
  intro r hr
  rw [create_summary_ok hok, List.mem_insertionSort] at hr
  obtain ⟨s, _, rfl⟩ := List.mem_map.mp hr
  rfl

/-- Witness for C9 on the concrete scenario. -/
theorem summary_correct_count_eq_total_witness :
    (mkSummaryRow wsubA2).correct_count = (mkSummaryRow wsubA2).total :=
  summary_correct_count_eq_total [wsubA1, wsubA2, wsubB]
    [mkSummaryRow wsubA2, mkSummaryRow wsubB] (by decide)
    (mkSummaryRow wsubA2) (by decide)

/-- **C10**: for every submission sequence and every question, the counts of
"O", "X" and "?" verdicts partition the population -- they sum to the number
of submissions -- because the extractor yields exactly one of the three
verdicts for every feedback value. -/
theorem verdict_counts_partition :
    (∀ (df : List Submission) (i : Fin 3),
      count_result_q df i "O" + count_result_q df i "X" +
        count_result_q df i "?" = df.length)
    ∧ (∀ f : Option String,
        extract_result f = "O" ∨ extract_result f = "X" ∨
          extract_result f = "?") := by
  refine ⟨?_, extract_result_mem⟩
  intro df i
  induction df with
  | nil => rfl
  | cons s t ih =>
    have hmem : result_q i s = "O" ∨ result_q i s = "X" ∨ result_q i s = "?" := by
      rw [result_q]
      split_ifs <;>
        first
          | exact extract_result_mem s.feedback_1
          | exact extract_result_mem s.feedback_2
          | exact extract_result_mem s.feedback_3
    simp only [count_result_q, List.countP_cons] at ih ⊢
    rcases hmem with h | h | h <;> simp [h] <;> omega
